import Mathlib

/-!
Verification of the evm-proxy-tools detection pipeline against its
specification.  The Rust sources are shallowly embedded: bytes are `Nat`,
byte strings (code, calldata, addresses) are `List Nat`, 256-bit words are
`Nat`, and Rust slice indexing that can panic is modelled with
`Except Unit` (where `.error ()` is a panic).  The `revm` interpreter
itself is not embedded; the dynamic detector is modelled relative to an
abstract executor function, and the pure analysis layered on top of it
(`detect_proxy_from_data`, the taint database, the inspector record) is
embedded in full.
-/

/-- Big-endian interpretation of a byte string as a natural number
(models alloy `U256::from_be_slice`). -/
def beToNat (l : List Nat) : Nat := l.foldl (fun acc b => acc * 256 + b) 0

/-- Big-endian byte string of fixed length `len` for a natural number
(only the low `8*len` bits of `n` are used, exactly as taking the last
`len` bytes of a fixed-width big-endian representation). -/
def natToBe : Nat → Nat → List Nat
  | 0, _ => []
  | l + 1, n => natToBe l (n / 256) ++ [n % 256]

/-- Rust slice indexing `&code[a..b]`: `none` models the out-of-bounds
panic, `some` the extracted sub-slice. -/
def sliceRange (code : List Nat) (a b : Nat) : Option (List Nat) :=
  if a ≤ b ∧ b ≤ code.length then some ((code.drop a).take (b - a)) else none

/-- Boolean test that `pat` occurs at the front of `code`. -/
def matchesFront : List Nat → List Nat → Bool
  | [], _ => true
  | _ :: _, [] => false
  | p :: ps, c :: cs => (p == c) && matchesFront ps cs

/-- Boolean substring search (models `twoway::find_bytes(code, pat).is_some()`). -/
def containsSeq : List Nat → List Nat → Bool
  | [], pat => pat.isEmpty
  | c :: rest, pat => matchesFront pat (c :: rest) || containsSeq rest pat

/-- Association-list map with the observable behaviour of a Rust
`HashMap` insert: at most one entry per key, later inserts overwrite. -/
def hmInsert (m : List (List Nat × Nat)) (k : List Nat) (v : Nat) : List (List Nat × Nat) :=
  (k, v) :: m.filter (fun p => !(p.1 = k : Bool))

/-- ProxyType, from src/types.rs. -/
inductive ProxyType where
  | NoProxy
  | Unknown
  | Eip1167
  | Eip3448
  | Eip7511
  | StaticAddress
  | Eip897
  | Eip1967
  | Eip1967Custom
  | Eip1967Zos
  | Eip1967Beacon
  | Eip1822
  | Eip2535
  | DiamondOther
  | External
  | GnosisSafe
  | Eip6551
  | CompoundUnitroller
  | ZeroAgeMinimal
  | VyperBeta
  | SoladyPush0
  | ClonesWithImmutableArgs
  | SequenceWallet
  | ZeroXSplitsClones
deriving DecidableEq, Repr

/-- Dispatch, from src/types.rs (`ProxyDispatch` is an alias of it). -/
inductive Dispatch where
  | unknown
  | storage (slot : Nat)
  | multipleStorage (slots : List Nat)
  | static (addr : List Nat)
  | diamondFacets
  | diamondStorage
  | external (addr : List Nat) (selector : Nat)
  | static6551 (implementation : List Nat) (chain_id : Nat)
      (token_contract : List Nat) (token_id : Nat)
  | selfAddressSlot
deriving DecidableEq, Repr

def EIP_1667_FIRST_BYTES : List Nat :=
  [0x36, 0x3d, 0x3d, 0x37, 0x3d, 0x3d, 0x3d, 0x36, 0x3d, 0x73]

def EIP_1667_SECOND_BYTES : List Nat :=
  [0x5a, 0xf4, 0x3d, 0x82, 0x80, 0x3e, 0x90, 0x3d, 0x91, 0x60, 0x2b, 0x57, 0xfd, 0x5b, 0xf3]

def EIP_1667_SHORT_FIRST_BYTES : List Nat :=
  [0x36, 0x3d, 0x3d, 0x37, 0x3d, 0x3d, 0x3d, 0x36, 0x3d, 0x6f]

def EIP_7511_FIRST_BYTES : List Nat :=
  [0x36, 0x5f, 0x5f, 0x37, 0x5f, 0x5f, 0x36, 0x5f, 0x73]

def EIP_7511_SECOND_BYTES : List Nat :=
  [0x5a, 0xf4, 0x3d, 0x5f, 0x5f, 0x3e, 0x5f, 0x3d, 0x91, 0x60, 0x2a, 0x57, 0xfd, 0x5b, 0xf3]

def EIP_7511_SHORT_FIRST_BYTES : List Nat :=
  [0x36, 0x5f, 0x5f, 0x37, 0x5f, 0x5f, 0x36, 0x5f, 0x6f]

def EIP_3448_FIRST_BYTES : List Nat :=
  [0x36, 0x3d, 0x3d, 0x37, 0x3d, 0x3d, 0x3d, 0x3d, 0x60, 0x36, 0x80, 0x38, 0x03, 0x80, 0x91, 0x36, 0x39, 0x36, 0x01, 0x3d, 0x73]

def EIP_3448_SECOND_BYTES : List Nat :=
  [0x5a, 0xf4, 0x3d, 0x3d, 0x93, 0x80, 0x3e, 0x60, 0x34, 0x57, 0xfd, 0x5b, 0xf3]

def EIP_3448_SHORT_FIRST_BYTES : List Nat :=
  [0x36, 0x3d, 0x3d, 0x37, 0x3d, 0x3d, 0x3d, 0x3d, 0x60, 0x36, 0x80, 0x38, 0x03, 0x80, 0x91, 0x36, 0x39, 0x36, 0x01, 0x3d, 0x6f]

def ZERO_AGE_FIRST : List Nat :=
  [0x3d, 0x3d, 0x3d, 0x3d, 0x36, 0x3d, 0x3d, 0x37, 0x36, 0x3d, 0x73]

def ZERO_AGE_SECOND : List Nat :=
  [0x5a, 0xf4, 0x3d, 0x3d, 0x93, 0x80, 0x3e, 0x60, 0x2a, 0x57, 0xfd, 0x5b, 0xf3]

def SOLADY_PUSH0_FIRST : List Nat :=
  [0x5f, 0x5f, 0x36, 0x5f, 0x5f, 0x37, 0x36, 0x5f, 0x73]

def SOLADY_PUSH0_SECOND : List Nat :=
  [0x5a, 0xf4, 0x3d, 0x5f, 0x5f, 0x3e, 0x60, 0x29, 0x57, 0x3d, 0x5f, 0xfd, 0x5b, 0x3d, 0x5f, 0xf3]

def VYPER_BETA_FIRST : List Nat :=
  [0x36, 0x60, 0x00, 0x60, 0x00, 0x37, 0x61, 0x10, 0x00, 0x60, 0x00, 0x36, 0x60, 0x00, 0x73]

def VYPER_BETA_SECOND : List Nat :=
  [0x5a, 0xf4, 0x15, 0x58, 0x57, 0x61, 0x10, 0x00, 0x60, 0x00, 0xf3]

def SEQUENCE_WALLET_BYTECODE : List Nat :=
  [0x36, 0x3d, 0x3d, 0x37, 0x3d, 0x3d, 0x3d, 0x36, 0x3d, 0x30, 0x54, 0x5a, 0xf4, 0x3d, 0x82, 0x80, 0x3e, 0x90, 0x3d, 0x91, 0x60, 0x18, 0x57, 0xfd, 0x5b, 0xf3]

def ZERO_X_SPLITS_FIRST : List Nat :=
  [0x36, 0x60, 0x30, 0x57, 0x34, 0x3d, 0x52, 0x30, 0x7f, 0x83, 0x0d, 0x2d, 0x70, 0x0a, 0x97, 0xaf, 0x57, 0x4b, 0x18, 0x6c, 0x80, 0xd4, 0x04, 0x29, 0x38, 0x5d, 0x24, 0x24, 0x15, 0x65, 0xb0, 0x8a, 0x7c, 0x55, 0x9b, 0xa2, 0x83, 0xa9, 0x64, 0xd9, 0xb1, 0x60, 0x20, 0x3d, 0xa2, 0x3d, 0x3d, 0xf3, 0x5b, 0x3d, 0x3d, 0x3d, 0x3d, 0x36, 0x3d, 0x3d, 0x37, 0x36, 0x3d, 0x73]

def ZERO_X_SPLITS_SECOND : List Nat :=
  [0x5a, 0xf4, 0x3d, 0x3d, 0x93, 0x80, 0x3e, 0x60, 0x5b, 0x57, 0xfd, 0x5b, 0xf3]

def CWIA_FIRST : List Nat :=
  [0x3d, 0x3d, 0x3d, 0x3d, 0x36, 0x3d, 0x3d, 0x37, 0x61]

def CWIA_SECOND : List Nat :=
  [0x5a, 0xf4, 0x3d, 0x3d, 0x93, 0x80, 0x3e, 0x60, 0x57, 0xfd, 0x5b, 0xf3]

def GNOSIS_SAFE_MASTERCOPY_SELECTOR : List Nat :=
  [0xa6, 0x19, 0x48, 0x6e]

def COMPTROLLER_IMPL_SELECTOR : List Nat :=
  [0xbb, 0x82, 0xaa, 0x5e]

def DIAMOND_FACET_MARKER : List Nat :=
  [0x63, 0x7a, 0x0e, 0xd6, 0x27]

def DIAMOND_STANDARD_STORAGE_SLOT_LESSBYTES : List Nat :=
  [0xc8, 0xfc, 0xad, 0x8d, 0xb8, 0x4d, 0x3c, 0xc1, 0x8b, 0x4c, 0x41, 0xd5, 0x51, 0xea, 0x0e, 0xe6, 0x6d, 0xd5, 0x99, 0xcd, 0xe0, 0x68, 0xd9, 0x98, 0xe5, 0x7d, 0x5e, 0x09, 0x33, 0x2c, 0x13]

def GNOSIS_SAFE_STORAGE_SLOT : Nat := 0

def COMPOUND_UNITROLLER_STORAGE_SLOT : Nat := 2

def EIP_6551_SIZE : Nat := 173

def EIP_1167_SIZE : Nat := 45

/-- Embedding of `extract_minimal_contract` from src/detect.rs.  Rust
short-circuits `code.len() >= min_size && code[0..fp] == fp &&
code[ss..ss+sp] == sp`; each slice can panic (modelled by `.error ()`),
and the 16-byte address is padded with four leading zero bytes. -/
def extract_minimal_contract (ADDR_SIZE : Nat) (code : List Nat) (min_size : Nat)
    (first_part second_part : List Nat) : Except Unit (Option (List Nat)) :=
  let second_start := first_part.length + ADDR_SIZE
  if code.length < min_size then .ok none
  else
    match sliceRange code 0 first_part.length with
    | none => .error ()
    | some s1 =>
      if s1 = first_part then
        match sliceRange code second_start (second_start + second_part.length) with
        | none => .error ()
        | some s2 =>
          if s2 = second_part then
            match sliceRange code first_part.length second_start with
            | none => .error ()
            | some addr =>
              .ok (some (if ADDR_SIZE = 16 then List.replicate 4 0 ++ addr else addr))
        else .ok none
      else .ok none

def is_eip_1667_long (code : List Nat) : Except Unit (Option (List Nat)) :=
  extract_minimal_contract 20 code 45 EIP_1667_FIRST_BYTES EIP_1667_SECOND_BYTES

def is_eip_1667_short (code : List Nat) : Except Unit (Option (List Nat)) :=
  extract_minimal_contract 16 code 41 EIP_1667_SHORT_FIRST_BYTES EIP_1667_SECOND_BYTES

def is_eip_7511_long (code : List Nat) : Except Unit (Option (List Nat)) :=
  extract_minimal_contract 20 code 44 EIP_7511_FIRST_BYTES EIP_7511_SECOND_BYTES

def is_eip_7511_short (code : List Nat) : Except Unit (Option (List Nat)) :=
  extract_minimal_contract 16 code 40 EIP_7511_SHORT_FIRST_BYTES EIP_7511_SECOND_BYTES

def is_eip_3448_long (code : List Nat) : Except Unit (Option (List Nat)) :=
  extract_minimal_contract 20 code 44 EIP_3448_FIRST_BYTES EIP_3448_SECOND_BYTES

def is_eip_3448_short (code : List Nat) : Except Unit (Option (List Nat)) :=
  extract_minimal_contract 16 code 44 EIP_3448_SHORT_FIRST_BYTES EIP_3448_SECOND_BYTES

/-- Rust `Option::or_else` lifted over the panic monad. -/
def orE (x y : Except Unit (Option (List Nat))) : Except Unit (Option (List Nat)) :=
  match x with
  | .error e => .error e
  | .ok (some a) => .ok (some a)
  | .ok none => y

def is_eip_1667 (code : List Nat) : Except Unit (Option (List Nat)) :=
  orE (is_eip_1667_long code) (is_eip_1667_short code)

def is_eip_7511 (code : List Nat) : Except Unit (Option (List Nat)) :=
  orE (is_eip_7511_long code) (is_eip_7511_short code)

def is_eip_3448 (code : List Nat) : Except Unit (Option (List Nat)) :=
  orE (is_eip_3448_long code) (is_eip_3448_short code)

/-- Chaining helper for a detector step whose test may panic. -/
def stepE (x : Except Unit (Option (List Nat))) (f : List Nat → ProxyType × Dispatch)
    (rest : Except Unit (Option (ProxyType × Dispatch))) :
    Except Unit (Option (ProxyType × Dispatch)) :=
  match x with
  | .error _ => .error ()
  | .ok (some a) => .ok (some (f a))
  | .ok none => rest

/-- Chaining helper for a total detector step. -/
def stepO {α : Type} (x : Option α) (f : α → ProxyType × Dispatch)
    (rest : Except Unit (Option (ProxyType × Dispatch))) :
    Except Unit (Option (ProxyType × Dispatch)) :=
  match x with
  | some a => .ok (some (f a))
  | none => rest

/-- Chaining helper for a Boolean detector step. -/
def stepB (b : Bool) (r : ProxyType × Dispatch)
    (rest : Except Unit (Option (ProxyType × Dispatch))) :
    Except Unit (Option (ProxyType × Dispatch)) :=
  if b then .ok (some r) else rest

/-- Embedding of `MinimalProxy::try_match` from src/detect.rs. -/
def MinimalProxy_try_match (code : List Nat) : Except Unit (Option (ProxyType × Dispatch)) :=
  stepE (is_eip_1667 code) (fun a => (.Eip1167, .static a))
    (stepE (is_eip_7511 code) (fun a => (.Eip7511, .static a))
      (stepE (is_eip_3448 code) (fun a => (.Eip3448, .static a))
        (.ok none)))

/-- Embedding of `ExtendedStaticProxy::is_eip_6551`: all slices are
guarded by the exact-length check `code.len() == 173`, so this matcher
cannot panic.  `EIP_1167_FIRST`/`EIP_1167_SECOND` in the source are the
same literals as `EIP_1667_FIRST_BYTES`/`EIP_1667_SECOND_BYTES`. -/
def is_eip_6551 (code : List Nat) : Option (List Nat × Nat × List Nat × Nat) :=
  if code.length ≠ EIP_6551_SIZE then none
  else if code.length < EIP_1167_SIZE then none
  else
    let second_start := EIP_1667_FIRST_BYTES.length + 20
    if code.take EIP_1667_FIRST_BYTES.length ≠ EIP_1667_FIRST_BYTES then none
    else if (code.drop second_start).take EIP_1667_SECOND_BYTES.length ≠ EIP_1667_SECOND_BYTES then none
    else
      let impl_addr := (code.drop EIP_1667_FIRST_BYTES.length).take 20
      let data_section := code.drop EIP_1167_SIZE
      if data_section.length < 128 then none
      else
        let chain_id := beToNat ((data_section.drop 32).take 32)
        let token_contract := (data_section.drop 76).take 20
        let token_id := beToNat ((data_section.drop 96).take 32)
        some (impl_addr, chain_id, token_contract, token_id)

def is_zero_age (code : List Nat) : Except Unit (Option (List Nat)) :=
  extract_minimal_contract 20 code 44 ZERO_AGE_FIRST ZERO_AGE_SECOND

def is_solady_push0 (code : List Nat) : Except Unit (Option (List Nat)) :=
  extract_minimal_contract 20 code 44 SOLADY_PUSH0_FIRST SOLADY_PUSH0_SECOND

def is_vyper_beta (code : List Nat) : Except Unit (Option (List Nat)) :=
  extract_minimal_contract 20 code 46 VYPER_BETA_FIRST VYPER_BETA_SECOND

def is_sequence_wallet (code : List Nat) : Bool :=
  code = SEQUENCE_WALLET_BYTECODE

/-- Embedding of `ExtendedStaticProxy::is_zero_x_splits`: the length is
checked against the full pattern length before any slicing, so this
matcher cannot panic. -/
def is_zero_x_splits (code : List Nat) : Option (List Nat) :=
  let first_len := ZERO_X_SPLITS_FIRST.length
  let addr_end := first_len + 20
  let min_size := addr_end + ZERO_X_SPLITS_SECOND.length
  if code.length < min_size then none
  else if code.take first_len ≠ ZERO_X_SPLITS_FIRST then none
  else if (code.drop addr_end).take ZERO_X_SPLITS_SECOND.length ≠ ZERO_X_SPLITS_SECOND then none
  else some ((code.drop first_len).take 20)

/-- Embedding of `ExtendedStaticProxy::is_cwia`. -/
def is_cwia (code : List Nat) : Option (List Nat) :=
  if code.length < 60 then none
  else if code.take CWIA_FIRST.length ≠ CWIA_FIRST then none
  else
    let addr_start := CWIA_FIRST.length + 4 + 8
    if code.length < addr_start + 20 + CWIA_SECOND.length then none
    else if containsSeq code CWIA_SECOND then some ((code.drop addr_start).take 20)
    else none

def is_gnosis_safe (code : List Nat) : Bool :=
  containsSeq code GNOSIS_SAFE_MASTERCOPY_SELECTOR

def is_compound_unitroller (code : List Nat) : Bool :=
  containsSeq code COMPTROLLER_IMPL_SELECTOR

/-- Embedding of `ExtendedStaticProxy::try_match` from src/detect.rs,
in the source's dispatch order. -/
def ExtendedStaticProxy_try_match (code : List Nat) :
    Except Unit (Option (ProxyType × Dispatch)) :=
  stepO (is_eip_6551 code)
    (fun r => (.Eip6551, .static6551 r.1 r.2.1 r.2.2.1 r.2.2.2))
    (stepE (is_zero_age code) (fun a => (.ZeroAgeMinimal, .static a))
      (stepE (is_solady_push0 code) (fun a => (.SoladyPush0, .static a))
        (stepE (is_vyper_beta code) (fun a => (.VyperBeta, .static a))
          (stepB (is_sequence_wallet code) (.SequenceWallet, .selfAddressSlot)
            (stepO (is_zero_x_splits code) (fun a => (.ZeroXSplitsClones, .static a))
              (stepO (is_cwia code) (fun a => (.ClonesWithImmutableArgs, .static a))
                (stepB (is_gnosis_safe code) (.GnosisSafe, .storage GNOSIS_SAFE_STORAGE_SLOT)
                  (stepB (is_compound_unitroller code)
                    (.CompoundUnitroller, .storage COMPOUND_UNITROLLER_STORAGE_SLOT)
                    (.ok none)))))))))

/-- Embedding of `get_proxy_type` from src/detect.rs, relative to an
abstract dynamic detector `dyn_detect` standing for
`StorageSlotProxy::try_match` (which runs the revm interpreter and is
only consulted when both static matchers return `None`). -/
def get_proxy_type_with (dyn_detect : List Nat → Except Unit (Option (ProxyType × Dispatch)))
    (code : List Nat) : Except Unit (Option (ProxyType × Dispatch)) :=
  match ExtendedStaticProxy_try_match code with
  | .error _ => .error ()
  | .ok (some r) => .ok (some r)
  | .ok none =>
    match MinimalProxy_try_match code with
    | .error _ => .error ()
    | .ok (some r) => .ok (some r)
    | .ok none => dyn_detect code

instance {α β : Type} [DecidableEq α] [DecidableEq β] : DecidableEq (Except α β) :=
  fun x y =>
    match x, y with
    | .error a, .error b =>
      if h : a = b then .isTrue (by rw [h]) else .isFalse (by intro he; injection he; exact h ‹_›)
    | .error _, .ok _ => .isFalse (by intro he; exact Except.noConfusion he)
    | .ok _, .error _ => .isFalse (by intro he; exact Except.noConfusion he)
    | .ok a, .ok b =>
      if h : a = b then .isTrue (by rw [h]) else .isFalse (by intro he; injection he; exact h ‹_›)

/-- Dynamic detector stub returning no detection; used only to close
concrete evaluations in which the static matchers already decide. -/
def dynStub : List Nat → Except Unit (Option (ProxyType × Dispatch)) :=
  fun _ => .ok none

example :
    get_proxy_type_with dynStub
      (EIP_1667_FIRST_BYTES ++ List.replicate 20 0xbe ++ EIP_1667_SECOND_BYTES) =
      .ok (some (.Eip1167, .static (List.replicate 20 0xbe))) := by decide

example :
    get_proxy_type_with dynStub
      (EIP_1667_SHORT_FIRST_BYTES ++ List.replicate 16 0xbe ++ EIP_1667_SECOND_BYTES) =
      .ok (some (.Eip1167, .static (List.replicate 4 0 ++ List.replicate 16 0xbe))) := by decide

example :
    get_proxy_type_with dynStub SEQUENCE_WALLET_BYTECODE =
      .ok (some (.SequenceWallet, .selfAddressSlot)) := by decide

/-- Per-run observation record of the inspector, from
src/proxy_inspector.rs (`InspectorData`); `Eq` is field-wise and
order-sensitive, as with the derived Rust `PartialEq`. -/
structure InspectorData where
  storage_access : List Nat
  delegatecall_storage : List Nat
  delegatecall_unknown : List (List Nat)
  external_calls : List (List Nat × Nat)
deriving DecidableEq, Repr

/-- Known EIP-1967-style storage-slot constants, from src/consts.rs. -/
def EIP_1967_DEFAULT_STORAGE : List (Nat × ProxyType) :=
  [(0x7050c9e0f4ca769c69bd3a8ef740bc37934f8e2c036e5a723fd8ee048ed3f8c3, .Eip1967Zos),
   (0x360894a13ba1a3210667c828492db98dca3e2076cc3735a920a3ca505d382bbc, .Eip1967),
   (0xa3f0ad74e5423aebfd80d3ef4346578335a9a72aeaee59ff6cb3582b35133d50, .Eip1967Beacon),
   (0xc5f16f0fcc639fa48a6947836d9850f504798523bf8c9a3a87d5876cf622bcf7, .Eip1822)]

/-- Known proxy-revealing function selectors, from src/consts.rs. -/
def FUN_TO_PROXY : List (Nat × ProxyType) :=
  [(0xcdffacc6, .Eip2535)]

/-- Embedding of `StorageCallTaint::identify_proxy_by_storage`. -/
def identify_proxy_by_storage (storage : Nat) : ProxyType :=
  match EIP_1967_DEFAULT_STORAGE.lookup storage with
  | some proxy => proxy
  | none => if storage > 0x100 then .Eip1967Custom else .Eip897

/-- Embedding of `StorageCallTaint::check_all_are_equal`; call sites
always pass a non-empty slice (the source indexes `data[0]`). -/
def check_all_are_equal (data : List InspectorData) : Bool :=
  match data with
  | [] => true
  | first :: _ => data.all (fun e => e = first)

/-- Embedding of `StorageCallTaint::detect_proxy_from_data`; `.error ()`
models the `data[0]` panic on an empty slice, which no call site
triggers. -/
def detect_proxy_from_data (code : List Nat) (data : List InspectorData) :
    Except Unit (Option (ProxyType × Dispatch)) :=
  match data with
  | [] => .error ()
  | d0 :: _ =>
    if check_all_are_equal data then
      match d0.delegatecall_unknown with
      | [static_address] => .ok (some (.StaticAddress, .static static_address))
      | _ =>
        match d0.delegatecall_storage with
        | [storage_slot] =>
          .ok (some (identify_proxy_by_storage storage_slot, .storage storage_slot))
        | _ =>
          match d0.external_calls with
          | [(address, fsel)] =>
            if (FUN_TO_PROXY.lookup fsel).isSome then
              .ok (some (.External, .external address fsel))
            else .ok none
          | _ => .ok none
    else if containsSeq code DIAMOND_FACET_MARKER then
      .ok (some (.Eip2535, .diamondFacets))
    else if containsSeq code DIAMOND_STANDARD_STORAGE_SLOT_LESSBYTES then
      .ok (some (.Eip2535, .diamondStorage))
    else .ok (some (.DiamondOther, .unknown))

/-- Sentinel mask from src/proxy_inspector.rs (`ADDR_MASK`): keeps the
low 160 bits of a 256-bit word. -/
def ADDR_MASK : Nat := 0xffffffffffffffffffffffffffffffffffffffff

/-- Sentinel XOR constant from src/proxy_inspector.rs (`ADDR_XOR`). -/
def ADDR_XOR : Nat := 0xc1d50e94dbe44a2e3595f7d5311d788076ac6188

/-- Taint-seeding world-state backend, from src/proxy_inspector.rs
(`ProxyDetectDB`); maps are association lists with `HashMap` insert
semantics (`hmInsert`). -/
structure ProxyDetectDB where
  contract_address : List Nat
  code : List (List Nat × Nat)
  values_to_storage : List (List Nat × Nat)
  delegatecalls : List (List Nat)
deriving Repr

/-- Embedding of `ProxyDetectDB::new`. -/
def ProxyDetectDB.new (contract_address : List Nat) : ProxyDetectDB :=
  ⟨contract_address, [], [], []⟩

/-- Embedding of `ProxyDetectDB::install_contract`; installed code is
keyed by address (the code bytes themselves are irrelevant to the claims
proved here, so they are stored via their numeric value `beToNat`). -/
def ProxyDetectDB.install_contract (db : ProxyDetectDB) (address : List Nat)
    (code : List Nat) : ProxyDetectDB :=
  { db with code := hmInsert db.code address (beToNat code) }

/-- Embedding of `Database::storage` for `ProxyDetectDB`: computes the
sentinel `(index AND ADDR_MASK) XOR ADDR_XOR`, records the sentinel
address (the low 20 bytes of the 32-byte big-endian sentinel word,
exactly `Address::from_word`) against the full index, and returns the
sentinel.  The Rust return type is `Result<U256, ProxyDetectError>`. -/
def ProxyDetectDB.storage (db : ProxyDetectDB) (_address : List Nat) (index : Nat) :
    Except Unit Nat × ProxyDetectDB :=
  let magic_value := Nat.xor (Nat.land index ADDR_MASK) ADDR_XOR
  let magic_address := natToBe 20 magic_value
  (.ok magic_value,
   { db with values_to_storage := hmInsert db.values_to_storage magic_address index })

/-- Sentinel address derived from a storage index, as the inspector later
sees it as a DELEGATECALL target. -/
def sentinelAddr (index : Nat) : List Nat :=
  natToBe 20 (Nat.xor (Nat.land index ADDR_MASK) ADDR_XOR)

/-- Mutable state surviving between EVM runs, were any shared: the
backend and the inspector record.  Each `trace_calldata` call constructs
fresh instances of both, which is what the determinism claim rests on. -/
structure EvmWorld where
  db : ProxyDetectDB
  inspector : InspectorData

/-- Abstract single-transaction executor standing for the revm
interpreter inspected by `ProxyInspector`: given code, calldata and the
initial backend and inspector record, it yields the final inspector
record and backend.  It is a pure function, as revm's execution is
deterministic. -/
def EvmExec : Type :=
  List Nat → List Nat → ProxyDetectDB → InspectorData → InspectorData × ProxyDetectDB

/-- Embedding of `StorageCallTaint::trace_calldata`, threaded through an
`EvmWorld` to expose that it ignores any previous state: it builds a
fresh `ProxyDetectDB` and a fresh inspector for every run. -/
def trace_calldata (exec : EvmExec) (code address calldata : List Nat)
    (_w : EvmWorld) : InspectorData × EvmWorld :=
  let db := (ProxyDetectDB.new address).install_contract address code
  let inspector : InspectorData := ⟨[], [], [], []⟩
  let res := exec code calldata db inspector
  (res.1, ⟨res.2, res.1⟩)

/-- Embedding of `StorageCallTaint::get_proxy`: three fixed probe
calldatas, then `detect_proxy_from_data` over the three records. -/
def StorageCallTaint_get_proxy (exec : EvmExec) (code address : List Nat)
    (w : EvmWorld) : Except Unit (Option (ProxyType × Dispatch)) × EvmWorld :=
  let r1 := trace_calldata exec code address [0xaa, 0xcc, 0xbb, 0xdd] w
  let r2 := trace_calldata exec code address
    [0xcc, 0xbb, 0xdd, 0xf1, 0xf1, 0xf1, 0xf1, 0xf1, 0xf1, 0xf1] r1.2
  let r3 := trace_calldata exec code address [0x01, 0x02, 0x04, 0x11] r2.2
  (detect_proxy_from_data code [r1.1, r2.1, r3.1], r3.2)

def DEFAULT_CONTRACT_ADDRESS : List Nat :=
  [0x00, 0xff, 0x00, 0x00, 0xff, 0x00, 0x00, 0xff, 0x00, 0x00, 0xff, 0x00, 0x00, 0xff, 0x00, 0x00, 0xff, 0x00, 0x00, 0xff]

/-- Embedding of `StorageSlotProxy::try_match` (dynamic detector entry
point): a fresh `StorageCallTaint` at the fixed contract address. -/
def StorageSlotProxy_try_match (exec : EvmExec) (code : List Nat) (w : EvmWorld) :
    Except Unit (Option (ProxyType × Dispatch)) × EvmWorld :=
  StorageCallTaint_get_proxy exec code DEFAULT_CONTRACT_ADDRESS w

/-- Errors of the implementation reader, from src/read.rs
(`ProxyReadError`, referenced there by its constructors). -/
inductive ProxyReadError where
  | RPCError
  | StorageNotAddress
  | UnknownProxy
  | ExternalProxy
deriving DecidableEq, Repr

/-- Resolved implementation value, from src/read.rs
(`ProxyImplementation`); `Facets` carries the `HashMap<Address, u32>`
as an association list with at most one entry per key. -/
inductive ProxyImplementation where
  | Single (addr : List Nat)
  | Multiple (addrs : List (List Nat))
  | Facets (m : List (List Nat × Nat))
deriving DecidableEq, Repr

/-- Provider storage query `get_storage_at(address, slot, block)`
returning a 256-bit word, abstracting the RPC middleware. -/
def StorageProvider : Type := List Nat → Nat → Option Nat → Except Unit Nat

/-- Embedding of `read_single_storage_implementation` from src/read.rs:
fetch the word, require `(value AND low-160-mask) == value`, and return
the low 20 bytes (`h256_to_raddress_unchecked` takes bytes 12..32 of the
big-endian word). -/
def read_single_storage_implementation (get_storage_at : StorageProvider)
    (address : List Nat) (storage : Nat) (block_number : Option Nat) :
    Except ProxyReadError (List Nat) :=
  match get_storage_at address storage block_number with
  | .error _ => .error .RPCError
  | .ok w =>
    if Nat.land w ADDR_MASK = w then .ok (natToBe 20 w)
    else .error .StorageNotAddress

/-- Little-endian selector decoding from src/utils.rs (`as_u32_le`). -/
def as_u32_le (array : List Nat) : Nat :=
  array.getD 0 0 + array.getD 1 0 * 2 ^ 8 + array.getD 2 0 * 2 ^ 16 + array.getD 3 0 * 2 ^ 24

/-- Decoded result of the Diamond loupe `facets()` call: a list of
`(facetAddress, functionSelectors)` with each selector as its four
on-wire bytes, abstracting the provider-side ABI machinery. -/
def FacetsResult : Type := Except Unit (List (List Nat × List (List Nat)))

/-- Per-facet `(address, decoded selector)` pairs in call order, as
produced by the iterator in `read_facet_list_from_function` before the
`HashMap` collect. -/
def facetPairs (facets : List (List Nat × List (List Nat))) : List (List Nat × Nat) :=
  (facets.map (fun v => v.2.map (fun v1 => (v.1, as_u32_le v1)))).flatten

/-- Sequential `HashMap` collect of key-value pairs, later inserts
overwriting earlier ones with the same key. -/
def collectHashMap (l : List (List Nat × Nat)) : List (List Nat × Nat) :=
  l.foldl (fun m kv => hmInsert m kv.1 kv.2) []

/-- Embedding of `read_facet_list_from_function` from src/read.rs. -/
def read_facet_list_from_function (facetsCall : FacetsResult) :
    Except ProxyReadError ProxyImplementation :=
  match facetsCall with
  | .error _ => .error .RPCError
  | .ok facets => .ok (.Facets (collectHashMap (facetPairs facets)))

/-- Collect of parallel single-storage reads for `MultipleStorage`
("all-or-first-error", as `Result` collect from `join_all`). -/
def collectResults : List (Except ProxyReadError (List Nat)) →
    Except ProxyReadError (List (List Nat))
  | [] => .ok []
  | r :: rs =>
    match r, collectResults rs with
    | .error e, _ => .error e
    | .ok _, .error e => .error e
    | .ok a, .ok as_ => .ok (a :: as_)

/-- Embedding of `get_proxy_implementation` from src/read.rs.  The outer
`Option` models the source's `match proxy_dispatch`, which is
non-exhaustive over `types::Dispatch`: its arms `Facet_EIP_2535` and
`FacetStorageSlot` are read as the renamed `DiamondFacets` and
`DiamondStorage`, and there is no arm at all for `Static6551` or
`SelfAddressSlot` (`none`).  The `DiamondStorage` arm calls the
`read_diamond_implementation` stub, which returns `Multiple([])`. -/
def get_proxy_implementation (get_storage_at : StorageProvider)
    (facetsCall : FacetsResult) (address : List Nat) (proxy_dispatch : Dispatch)
    (block_number : Option Nat) :
    Option (Except ProxyReadError ProxyImplementation) :=
  match proxy_dispatch with
  | .unknown => some (.error .UnknownProxy)
  | .storage slot =>
    some ((read_single_storage_implementation get_storage_at address slot
      block_number).map .Single)
  | .multipleStorage slots =>
    some ((collectResults (slots.map (fun s =>
      read_single_storage_implementation get_storage_at address s
        block_number))).map .Multiple)
  | .static a => some (.ok (.Single a))
  | .diamondFacets => some (read_facet_list_from_function facetsCall)
  | .diamondStorage => some (.ok (.Multiple []))
  | .external _ _ => some (.error .ExternalProxy)
  | .static6551 _ _ _ _ => none
  | .selfAddressSlot => none

lemma lookup_filter_ne (m : List (List Nat × Nat)) (k a : List Nat) (h : k ≠ a) :
    List.lookup k (m.filter (fun p => !(p.1 = a : Bool))) = List.lookup k m := by
  induction m with
  | nil => rfl
  | cons p t ih =>
    have hb : (k == a) = false := by simp [h]
    by_cases hp : p.1 = a
    · simp [List.filter, hp, List.lookup, hb, ih]
    · by_cases hk : k = p.1
      · simp [List.filter, hp, List.lookup, hk]
      · have hk' : (k == p.1) = false := by simp [hk]
        simp [List.filter, hp, List.lookup, hk', ih]

lemma lookup_hmInsert (m : List (List Nat × Nat)) (k k' : List Nat) (v : Nat) :
    List.lookup k' (hmInsert m k v) = if k' = k then some v else List.lookup k' m := by
  by_cases h : k' = k
  · simp [hmInsert, List.lookup, h]
  · have hb : (k' == k) = false := by simp [h]
    simp [hmInsert, List.lookup, hb, h, lookup_filter_ne m k' k h]

lemma filter_hmInsert (m : List (List Nat × Nat)) (k : List Nat) (v : Nat) :
    (hmInsert m k v).filter (fun p => (p.1 = k : Bool)) = [(k, v)] := by
  have hcontra : ∀ p : List Nat × Nat, p ∈ m.filter (fun p => !(p.1 = k : Bool)) →
      ¬ ((p.1 = k : Bool) = true) := by
    intro p hp
    have := (List.mem_filter.mp hp).2
    simp at this ⊢
    exact this
  simp [hmInsert, List.filter_cons, List.filter_eq_nil_iff.mpr hcontra]

lemma land_addr_mask_eq_self_iff (w : Nat) : Nat.land w ADDR_MASK = w ↔ w < 2 ^ 160 := by
  have hmod : Nat.land w ADDR_MASK = w % 2 ^ 160 := by
    rw [show ADDR_MASK = 2 ^ 160 - 1 by decide]
    exact Nat.and_pow_two_sub_one_eq_mod w 160
  rw [hmod]
  constructor
  · intro h
    rw [← h]
    exact Nat.mod_lt w (by positivity)
  · exact Nat.mod_eq_of_lt

/-- Claim C1: for every address and 256-bit index, `ProxyDetectDB::storage`
returns `Ok` of `(index AND low-160-mask) XOR ADDR_XOR` (never an error)
and records the 20-byte sentinel address of that value against the index
in `values_to_storage`. -/
theorem taintdb_storage_returns_sentinel_and_records (db : ProxyDetectDB)
    (a : List Nat) (i : Nat) :
    (ProxyDetectDB.storage db a i).1 =
      .ok (Nat.xor (Nat.land i ADDR_MASK) ADDR_XOR) ∧
    (ProxyDetectDB.storage db a i).2.values_to_storage =
      hmInsert db.values_to_storage
        (natToBe 20 (Nat.xor (Nat.land i ADDR_MASK) ADDR_XOR)) i ∧
    List.lookup (natToBe 20 (Nat.xor (Nat.land i ADDR_MASK) ADDR_XOR))
      (ProxyDetectDB.storage db a i).2.values_to_storage = some i := by
  refine ⟨rfl, rfl, ?_⟩
  show List.lookup _ (hmInsert db.values_to_storage _ i) = some i
  rw [lookup_hmInsert]
  simp

/-- Claim C10: sentinel bookkeeping of the taint database.  For an index
with no bits above position 160, the map sends the sentinel address
straight back to the index; indices agreeing on their low 160 bits share
one sentinel address; after two reads whose indices agree on the low 160
bits, the map holds exactly the most recent index under that sentinel
address. -/
theorem sentinel_roundtrip_properties :
    (∀ (db : ProxyDetectDB) (a : List Nat) (i : Nat), Nat.land i ADDR_MASK = i →
      List.lookup (sentinelAddr i)
        ((ProxyDetectDB.storage db a i).2.values_to_storage) = some i) ∧
    (∀ i j : Nat, Nat.land i ADDR_MASK = Nat.land j ADDR_MASK →
      sentinelAddr i = sentinelAddr j) ∧
    (∀ (db : ProxyDetectDB) (a : List Nat) (i j : Nat),
      Nat.land i ADDR_MASK = Nat.land j ADDR_MASK →
      ((ProxyDetectDB.storage (ProxyDetectDB.storage db a i).2 a j).2.values_to_storage).filter
        (fun p => (p.1 = sentinelAddr j : Bool)) = [(sentinelAddr j, j)]) := by
  refine ⟨?_, ?_, ?_⟩
  · intro db a i _
    show List.lookup (sentinelAddr i) (hmInsert db.values_to_storage (sentinelAddr i) i) = some i
    rw [lookup_hmInsert]
    simp
  · intro i j h
    unfold sentinelAddr
    rw [h]
  · intro db a i j _
    show (hmInsert _ (sentinelAddr j) j).filter _ = _
    exact filter_hmInsert _ (sentinelAddr j) j

/-- Witness for the sentinel round-trip: a concrete low index read into a
fresh database. -/
theorem sentinel_roundtrip_properties_witness :
    List.lookup (sentinelAddr 5)
      ((ProxyDetectDB.storage (ProxyDetectDB.new DEFAULT_CONTRACT_ADDRESS)
        DEFAULT_CONTRACT_ADDRESS 5).2.values_to_storage) = some 5 :=
  sentinel_roundtrip_properties.1 (ProxyDetectDB.new DEFAULT_CONTRACT_ADDRESS)
    DEFAULT_CONTRACT_ADDRESS 5 (by decide)

/-- Claim C9: the dynamic detector is deterministic.  Each invocation of
`StorageSlotProxy::try_match` builds fresh `ProxyDetectDB` and inspector
instances for each of its three probe runs, so a second invocation on
the same bytes — even made in whatever state the first invocation left
behind — returns the same detection, relative to the (pure, hence
deterministic) abstract revm executor. -/
theorem dynamic_detector_deterministic (exec : EvmExec) (code : List Nat)
    (w : EvmWorld) :
    (StorageSlotProxy_try_match exec code
      ((StorageSlotProxy_try_match exec code w).2)).1 =
    (StorageSlotProxy_try_match exec code w).1 := rfl

/-- Claim C8 (refuted): `get_proxy_implementation` has no match arm for
the `Static6551` dispatch (the source's match is non-exhaustive over
`types::Dispatch`), so it cannot return `Single(implementation)`
— for any provider, address and block. -/
theorem static6551_read_missing_arm (get_storage_at : StorageProvider)
    (facetsCall : FacetsResult) (address : List Nat) (block : Option Nat)
    (impl : List Nat) (cid : Nat) (tc : List Nat) (tid : Nat) :
    get_proxy_implementation get_storage_at facetsCall address
      (.static6551 impl cid tc tid) block = none := rfl

/-- Claim C6: resolving a `Storage(s)` dispatch returns `Single` of the
low 20 bytes of the fetched word exactly when the high 12 bytes of the
word are zero, and fails with `StorageNotAddress` otherwise. -/
theorem storage_dispatch_read_iff (get_storage_at : StorageProvider)
    (facetsCall : FacetsResult) (address : List Nat) (s : Nat)
    (block : Option Nat) (w : Nat)
    (hw : get_storage_at address s block = .ok w) :
    (get_proxy_implementation get_storage_at facetsCall address (.storage s) block =
        some (.ok (.Single (natToBe 20 w))) ↔ w < 2 ^ 160) ∧
    (2 ^ 160 ≤ w →
      get_proxy_implementation get_storage_at facetsCall address (.storage s) block =
        some (.error .StorageNotAddress)) := by
  have hred : get_proxy_implementation get_storage_at facetsCall address (.storage s) block =
      some ((read_single_storage_implementation get_storage_at address s block).map .Single) := rfl
  rw [hred]
  unfold read_single_storage_implementation
  rw [hw]
  by_cases h : w < 2 ^ 160
  · have hm : Nat.land w ADDR_MASK = w := (land_addr_mask_eq_self_iff w).mpr h
    simp [hm, h, Except.map]
    omega
  · have hm : ¬ (Nat.land w ADDR_MASK = w) := fun hh =>
      h ((land_addr_mask_eq_self_iff w).mp hh)
    simp [hm, h, Except.map]
    omega

/-- Witness for the storage-dispatch read: a provider holding the word 7
(an address-shaped value) at every slot. -/
theorem storage_dispatch_read_iff_witness :
    get_proxy_implementation (fun _ _ _ => .ok 7) (.error ())
      DEFAULT_CONTRACT_ADDRESS (.storage 0) none =
      some (.ok (.Single (natToBe 20 7))) :=
  ((storage_dispatch_read_iff (fun _ _ _ => .ok 7) (.error ())
    DEFAULT_CONTRACT_ADDRESS 0 none 7 rfl).1).mpr (by norm_num)

lemma identify_ne_static_address (s : Nat) :
    identify_proxy_by_storage s ≠ .StaticAddress := by
  unfold identify_proxy_by_storage
  rcases hl : List.lookup s EIP_1967_DEFAULT_STORAGE with _ | p
  · dsimp only
    split <;> simp
  · dsimp only
    simp only [EIP_1967_DEFAULT_STORAGE, List.lookup] at hl
    repeat' split at hl
    all_goals first
      | (cases hl; simp)
      | simp_all

/-- Counterexample to claim C2: three identical run records whose
`delegatecall_storage` is the singleton `[5]` but whose
`delegatecall_unknown` also has one entry; the analysis returns
`(StaticAddress, Static(..))`, not `(classify(5), Storage(5))`, because
the source tests `delegatecall_unknown.len() == 1` first and without
requiring `delegatecall_storage` to be empty. -/
theorem dynamic_priority_counterexample :
    detect_proxy_from_data []
      [⟨[], [5], [List.replicate 20 0xab], []⟩,
       ⟨[], [5], [List.replicate 20 0xab], []⟩,
       ⟨[], [5], [List.replicate 20 0xab], []⟩] =
      .ok (some (.StaticAddress, .static (List.replicate 20 0xab))) ∧
    (some ((ProxyType.StaticAddress, Dispatch.static (List.replicate 20 0xab))) ≠
      some ((identify_proxy_by_storage 5, Dispatch.storage 5))) := by
  constructor
  · decide
  · decide

/-- Claim C2 (amended): with three pairwise-equal run records, a
singleton `delegatecall_storage` yields `(classify(slot), Storage(slot))`
only when `delegatecall_unknown` does not have exactly one entry; and a
`(StaticAddress, Static(a))` result is produced exactly from consistent
runs whose `delegatecall_unknown` is the singleton `[a]`, with no
condition on `delegatecall_storage`. -/
theorem dynamic_priority_amended :
    (∀ (code : List Nat) (r : InspectorData) (slot : Nat),
      r.delegatecall_storage = [slot] → r.delegatecall_unknown.length ≠ 1 →
      detect_proxy_from_data code [r, r, r] =
        .ok (some (identify_proxy_by_storage slot, .storage slot))) ∧
    (∀ (code : List Nat) (r1 r2 r3 : InspectorData) (d : Dispatch),
      detect_proxy_from_data code [r1, r2, r3] = .ok (some (.StaticAddress, d)) →
      r1 = r2 ∧ r1 = r3 ∧ ∃ a, d = .static a ∧ r1.delegatecall_unknown = [a]) := by
  constructor
  · intro code r slot hs hu
    have hall : check_all_are_equal [r, r, r] = true := by
      simp [check_all_are_equal]
    unfold detect_proxy_from_data
    rw [hall]
    simp only [if_true]
    rcases hru : r.delegatecall_unknown with _ | ⟨a, _ | ⟨b, t⟩⟩
    · rw [hs]
    · exact absurd (by rw [hru]; rfl) hu
    · rw [hs]
  · intro code r1 r2 r3 d h
    unfold detect_proxy_from_data at h
    by_cases hall : check_all_are_equal [r1, r2, r3] = true
    · have heq : r2 = r1 ∧ r3 = r1 := by
        have := hall
        simp [check_all_are_equal] at this
        exact this
      refine ⟨heq.1.symm, heq.2.symm, ?_⟩
      rw [hall] at h
      simp only [if_true] at h
      rcases hru : r1.delegatecall_unknown with _ | ⟨a, _ | ⟨b, t⟩⟩ <;> rw [hru] at h
      · exfalso
        rcases hrs : r1.delegatecall_storage with _ | ⟨sl, _ | ⟨s2, ts⟩⟩ <;> rw [hrs] at h
        · rcases hre : r1.external_calls with _ | ⟨⟨ad, fs⟩, _ | ⟨e2, te⟩⟩ <;> rw [hre] at h <;>
            dsimp only at h
          · simp_all
          · split_ifs at h <;> simp_all
          · simp_all
        · have := identify_ne_static_address sl
          simp_all
        · rcases hre : r1.external_calls with _ | ⟨⟨ad, fs⟩, _ | ⟨e2, te⟩⟩ <;> rw [hre] at h <;>
            dsimp only at h
          · simp_all
          · split_ifs at h <;> simp_all
          · simp_all
      · refine ⟨a, ?_, rfl⟩
        simp_all
      · exfalso
        rcases hrs : r1.delegatecall_storage with _ | ⟨sl, _ | ⟨s2, ts⟩⟩ <;> rw [hrs] at h
        · rcases hre : r1.external_calls with _ | ⟨⟨ad, fs⟩, _ | ⟨e2, te⟩⟩ <;> rw [hre] at h <;>
            dsimp only at h
          · simp_all
          · split_ifs at h <;> simp_all
          · simp_all
        · have := identify_ne_static_address sl
          simp_all
        · rcases hre : r1.external_calls with _ | ⟨⟨ad, fs⟩, _ | ⟨e2, te⟩⟩ <;> rw [hre] at h <;>
            dsimp only at h
          · simp_all
          · split_ifs at h <;> simp_all
          · simp_all
    · exfalso
      rw [Bool.not_eq_true] at hall
      rw [hall] at h
      simp only [Bool.false_eq_true, if_false] at h
      split_ifs at h <;> simp_all

/-- Witness for the amended dynamic priority: a consistent trace with a
single storage-derived DELEGATECALL and no unknown targets. -/
theorem dynamic_priority_amended_witness :
    detect_proxy_from_data []
      [⟨[], [5], [], []⟩, ⟨[], [5], [], []⟩, ⟨[], [5], [], []⟩] =
      .ok (some (identify_proxy_by_storage 5, .storage 5)) :=
  dynamic_priority_amended.1 [] ⟨[], [5], [], []⟩ 5 rfl (by decide)

lemma lookup_foldl_hmInsert (l : List (List Nat × Nat)) :
    ∀ (m : List (List Nat × Nat)) (k : List Nat),
    List.lookup k (l.foldl (fun m kv => hmInsert m kv.1 kv.2) m) =
      ((l.reverse.find? (fun p => (p.1 = k : Bool))).map Prod.snd).or
        (List.lookup k m) := by
  induction l with
  | nil => intro m k; simp
  | cons kv t ih =>
    intro m k
    show List.lookup k (t.foldl _ (hmInsert m kv.1 kv.2)) = _
    rw [ih, List.reverse_cons, List.find?_append, lookup_hmInsert]
    rcases hf : t.reverse.find? (fun p => (p.1 = k : Bool)) with _ | p <;> rw [hf]
    · by_cases hk : k = kv.1
      · have h1 : List.find? (fun p => (p.1 = k : Bool)) [kv] = some kv := by
          simp [List.find?, hk]
        rw [h1]
        simp [hk]
      · have hne : ((kv.1 = k : Bool)) = false :=
          decide_eq_false (fun he => hk he.symm)
        have h1 : List.find? (fun p => (p.1 = k : Bool)) [kv] = none := by
          simp [List.find?, hne]
        rw [h1]
        simp [hk]
    · simp

lemma keys_foldl_hmInsert (l : List (List Nat × Nat)) :
    ∀ m : List (List Nat × Nat), (m.map Prod.fst).Nodup →
    ((l.foldl (fun m kv => hmInsert m kv.1 kv.2) m).map Prod.fst).Nodup ∧
    ((l.foldl (fun m kv => hmInsert m kv.1 kv.2) m).map Prod.fst).toFinset =
      (m.map Prod.fst).toFinset ∪ (l.map Prod.fst).toFinset := by
  induction l with
  | nil => intro m hm; simpa using hm
  | cons kv t ih =>
    intro m hm
    have hsub : ((m.filter (fun p => !(p.1 = kv.1 : Bool))).map Prod.fst).Nodup := by
      exact hm.sublist ((List.filter_sublist m).map Prod.fst)
    have hstep_nodup : ((hmInsert m kv.1 kv.2).map Prod.fst).Nodup := by
      unfold hmInsert
      simp only [List.map_cons]
      refine List.Nodup.cons ?_ hsub
      intro hmem
      simp only [List.mem_map, List.mem_filter] at hmem
      obtain ⟨p, ⟨_, hne⟩, hfst⟩ := hmem
      simp [hfst] at hne
    have hstep_finset : ((hmInsert m kv.1 kv.2).map Prod.fst).toFinset =
        insert kv.1 ((m.map Prod.fst).toFinset) := by
      ext x
      simp only [hmInsert, List.map_cons, List.toFinset_cons, Finset.mem_insert,
        List.mem_toFinset, List.mem_map, List.mem_filter]
      constructor
      · rintro (hx | ⟨p, ⟨hp, _⟩, hfst⟩)
        · exact Or.inl hx
        · exact Or.inr ⟨p, hp, hfst⟩
      · rintro (hx | ⟨p, hp, hfst⟩)
        · exact Or.inl hx
        · by_cases hx1 : x = kv.1
          · exact Or.inl hx1
          · refine Or.inr ⟨p, ⟨hp, ?_⟩, hfst⟩
            simp [hfst]
            exact fun he => hx1 (hfst ▸ he)
    obtain ⟨hn, hf⟩ := ih (hmInsert m kv.1 kv.2) hstep_nodup
    rw [List.foldl_cons]
    refine ⟨hn, ?_⟩
    rw [hf, hstep_finset]
    simp only [List.map_cons, List.toFinset_cons]
    ext x
    simp
    try tauto

/-- Counterexample to claim C7: a single facet with two selectors.  The
total selector count is 2, but the built `Facets` value — a map keyed by
facet address — has a single entry, the second selector having
overwritten the first. -/
theorem facets_entry_count_counterexample :
    read_facet_list_from_function
      (.ok [(List.replicate 20 1, [[1, 0, 0, 0], [2, 0, 0, 0]])]) =
      .ok (.Facets [(List.replicate 20 1, 2)]) ∧
    ([((List.replicate 20 1 : List Nat), (2 : Nat))]).length ≠ 2 := by
  constructor
  · decide
  · decide

/-- Claim C7 (amended): the `Facets` value built from the decoded
`facets()` result has exactly one entry per distinct facet address (not
one per selector): its keys are pairwise distinct, its entry count is
the number of distinct facet addresses among the per-selector pairs, and
each address maps to the little-endian `u32` decoding of the last
selector reported for it. -/
theorem facets_map_amended (facets : List (List Nat × List (List Nat))) :
    read_facet_list_from_function (.ok facets) =
      .ok (.Facets (collectHashMap (facetPairs facets))) ∧
    ((collectHashMap (facetPairs facets)).map Prod.fst).Nodup ∧
    (collectHashMap (facetPairs facets)).length =
      ((facetPairs facets).map Prod.fst).toFinset.card ∧
    (∀ k, List.lookup k (collectHashMap (facetPairs facets)) =
      ((facetPairs facets).reverse.find? (fun p => (p.1 = k : Bool))).map
        Prod.snd) := by
  have hkeys := keys_foldl_hmInsert (facetPairs facets) [] (by simp)
  have hcol : collectHashMap (facetPairs facets) =
      (facetPairs facets).foldl (fun m kv => hmInsert m kv.1 kv.2) [] := rfl
  refine ⟨rfl, ?_, ?_, ?_⟩
  · rw [hcol]
    exact hkeys.1
  · rw [hcol]
    have hlen : (((facetPairs facets).foldl (fun m kv => hmInsert m kv.1 kv.2)
        []).map Prod.fst).length =
        ((facetPairs facets).foldl (fun m kv => hmInsert m kv.1 kv.2) []).length := by
      rw [List.length_map]
    rw [← hlen, ← List.toFinset_card_of_nodup hkeys.1, hkeys.2]
    simp
  · intro k
    rw [hcol, lookup_foldl_hmInsert]
    simp

lemma extract_short {n : Nat} {code : List Nat} {ms : Nat} {fp sp : List Nat}
    (h : code.length < ms) :
    extract_minimal_contract n code ms fp sp = .ok none := by
  unfold extract_minimal_contract
  rw [if_pos h]

lemma slice_front (code : List Nat) (b : Nat) (h : b ≤ code.length) :
    sliceRange code 0 b = some (code.take b) := by
  unfold sliceRange
  rw [if_pos ⟨Nat.zero_le _, h⟩]
  simp

lemma mismatch_at {code fp : List Nat} {j c d : Nat}
    (h1 : code.get? j = some c) (h2 : fp.get? j = some d) (hne : c ≠ d) :
    code.take fp.length ≠ fp := by
  intro he
  have hj : j < fp.length := by
    obtain ⟨h, _⟩ := List.get?_eq_some.mp h2
    exact h
  have hc : (code.take fp.length).get? j = some c := by
    rw [List.get?_take hj]
    exact h1
  rw [he, h2] at hc
  exact hne (Option.some.inj hc).symm

lemma extract_mismatch {n : Nat} {code : List Nat} {ms : Nat} {fp sp : List Nat}
    (hms : ms ≤ code.length) (hfp : fp.length ≤ code.length)
    (hne : code.take fp.length ≠ fp) :
    extract_minimal_contract n code ms fp sp = .ok none := by
  unfold extract_minimal_contract
  rw [if_neg (by omega)]
  rw [slice_front code fp.length hfp]
  dsimp only
  rw [if_neg hne]

lemma extract_hit (n : Nat) (H A T : List Nat) (hA : A.length = n) (ms : Nat)
    (hms : ms ≤ H.length + n + T.length) :
    extract_minimal_contract n (H ++ A ++ T) ms H T =
      .ok (some (if n = 16 then List.replicate 4 0 ++ A else A)) := by
  have hlen : (H ++ A ++ T).length = H.length + n + T.length := by
    simp [hA]
    omega
  have h1 : sliceRange (H ++ A ++ T) 0 H.length = some H := by
    rw [slice_front _ _ (by omega)]
    rw [List.append_assoc, List.take_left]
  have hdropT : (H ++ A ++ T).drop (H.length + n) = T := by
    exact List.drop_left' (by simp [hA])
  have h2 : sliceRange (H ++ A ++ T) (H.length + n) (H.length + n + T.length) =
      some T := by
    unfold sliceRange
    rw [if_pos ⟨by omega, by omega⟩]
    rw [show H.length + n + T.length - (H.length + n) = T.length by omega]
    rw [hdropT, List.take_length]
  have h3 : sliceRange (H ++ A ++ T) H.length (H.length + n) = some A := by
    unfold sliceRange
    rw [if_pos ⟨by omega, by omega⟩]
    rw [show H.length + n - H.length = n by omega]
    rw [List.append_assoc, List.drop_left, List.take_left' hA]
  unfold extract_minimal_contract
  rw [if_neg (by omega)]
  rw [h1]
  dsimp only
  rw [if_pos rfl, h2]
  dsimp only
  rw [if_pos rfl, h3]

lemma eip6551_none_of_length {code : List Nat} (h : code.length ≠ 173) :
    is_eip_6551 code = none := by
  unfold is_eip_6551
  rw [if_pos (by simpa [EIP_6551_SIZE] using h)]

lemma sequence_false_of_length {code : List Nat} (h : code.length ≠ 26) :
    is_sequence_wallet code = false := by
  unfold is_sequence_wallet
  simp only [decide_eq_false_iff_not]
  intro he
  apply h
  rw [he]
  rfl

lemma splits_none_of_length {code : List Nat} (h : code.length < 93) :
    is_zero_x_splits code = none := by
  unfold is_zero_x_splits
  rw [if_pos (by simpa using h)]

lemma cwia_none_of_length {code : List Nat} (h : code.length < 60) :
    is_cwia code = none := by
  unfold is_cwia
  rw [if_pos h]

lemma extended_none_of_components {code : List Nat}
    (h1 : is_eip_6551 code = none)
    (h2 : is_zero_age code = .ok none)
    (h3 : is_solady_push0 code = .ok none)
    (h4 : is_vyper_beta code = .ok none)
    (h5 : is_sequence_wallet code = false)
    (h6 : is_zero_x_splits code = none)
    (h7 : is_cwia code = none)
    (h8 : is_gnosis_safe code = false)
    (h9 : is_compound_unitroller code = false) :
    ExtendedStaticProxy_try_match code = .ok none := by
  unfold ExtendedStaticProxy_try_match
  rw [h1, h2, h3, h4, h5, h6, h7, h8, h9]
  simp [stepO, stepE, stepB]

lemma extended_hit_eip6551 {code : List Nat} {r : List Nat × Nat × List Nat × Nat}
    (h : is_eip_6551 code = some r) :
    ExtendedStaticProxy_try_match code =
      .ok (some (.Eip6551, .static6551 r.1 r.2.1 r.2.2.1 r.2.2.2)) := by
  unfold ExtendedStaticProxy_try_match
  rw [h]
  simp [stepO]

lemma extended_hit_zero_age {code a : List Nat}
    (h1 : is_eip_6551 code = none) (h2 : is_zero_age code = .ok (some a)) :
    ExtendedStaticProxy_try_match code = .ok (some (.ZeroAgeMinimal, .static a)) := by
  unfold ExtendedStaticProxy_try_match
  rw [h1, h2]
  simp [stepO, stepE]

lemma extended_hit_solady {code a : List Nat}
    (h1 : is_eip_6551 code = none) (h2 : is_zero_age code = .ok none)
    (h3 : is_solady_push0 code = .ok (some a)) :
    ExtendedStaticProxy_try_match code = .ok (some (.SoladyPush0, .static a)) := by
  unfold ExtendedStaticProxy_try_match
  rw [h1, h2, h3]
  simp [stepO, stepE]

lemma extended_hit_vyper {code a : List Nat}
    (h1 : is_eip_6551 code = none) (h2 : is_zero_age code = .ok none)
    (h3 : is_solady_push0 code = .ok none) (h4 : is_vyper_beta code = .ok (some a)) :
    ExtendedStaticProxy_try_match code = .ok (some (.VyperBeta, .static a)) := by
  unfold ExtendedStaticProxy_try_match
  rw [h1, h2, h3, h4]
  simp [stepO, stepE]

lemma extended_hit_splits {code a : List Nat}
    (h1 : is_eip_6551 code = none) (h2 : is_zero_age code = .ok none)
    (h3 : is_solady_push0 code = .ok none) (h4 : is_vyper_beta code = .ok none)
    (h5 : is_sequence_wallet code = false) (h6 : is_zero_x_splits code = some a) :
    ExtendedStaticProxy_try_match code =
      .ok (some (.ZeroXSplitsClones, .static a)) := by
  unfold ExtendedStaticProxy_try_match
  rw [h1, h2, h3, h4, h5, h6]
  simp [stepO, stepE, stepB]

lemma minimal_hit_1167_long {code a : List Nat}
    (h : is_eip_1667_long code = .ok (some a)) :
    MinimalProxy_try_match code = .ok (some (.Eip1167, .static a)) := by
  unfold MinimalProxy_try_match is_eip_1667
  rw [h]
  simp [orE, stepE]

lemma minimal_hit_1167_short {code a : List Nat}
    (h1 : is_eip_1667_long code = .ok none)
    (h2 : is_eip_1667_short code = .ok (some a)) :
    MinimalProxy_try_match code = .ok (some (.Eip1167, .static a)) := by
  unfold MinimalProxy_try_match is_eip_1667
  rw [h1, h2]
  simp [orE, stepE]

lemma minimal_hit_7511_long {code a : List Nat}
    (h1 : is_eip_1667_long code = .ok none)
    (h2 : is_eip_1667_short code = .ok none)
    (h3 : is_eip_7511_long code = .ok (some a)) :
    MinimalProxy_try_match code = .ok (some (.Eip7511, .static a)) := by
  unfold MinimalProxy_try_match is_eip_1667 is_eip_7511
  rw [h1, h2, h3]
  simp [orE, stepE]

lemma minimal_hit_7511_short {code a : List Nat}
    (h1 : is_eip_1667_long code = .ok none)
    (h2 : is_eip_1667_short code = .ok none)
    (h3 : is_eip_7511_long code = .ok none)
    (h4 : is_eip_7511_short code = .ok (some a)) :
    MinimalProxy_try_match code = .ok (some (.Eip7511, .static a)) := by
  unfold MinimalProxy_try_match is_eip_1667 is_eip_7511
  rw [h1, h2, h3, h4]
  simp [orE, stepE]

lemma minimal_hit_3448_long {code a : List Nat}
    (h1 : is_eip_1667_long code = .ok none)
    (h2 : is_eip_1667_short code = .ok none)
    (h3 : is_eip_7511_long code = .ok none)
    (h4 : is_eip_7511_short code = .ok none)
    (h5 : is_eip_3448_long code = .ok (some a)) :
    MinimalProxy_try_match code = .ok (some (.Eip3448, .static a)) := by
  unfold MinimalProxy_try_match is_eip_1667 is_eip_7511 is_eip_3448
  rw [h1, h2, h3, h4, h5]
  simp [orE, stepE]

lemma minimal_hit_3448_short {code a : List Nat}
    (h1 : is_eip_1667_long code = .ok none)
    (h2 : is_eip_1667_short code = .ok none)
    (h3 : is_eip_7511_long code = .ok none)
    (h4 : is_eip_7511_short code = .ok none)
    (h5 : is_eip_3448_long code = .ok none)
    (h6 : is_eip_3448_short code = .ok (some a)) :
    MinimalProxy_try_match code = .ok (some (.Eip3448, .static a)) := by
  unfold MinimalProxy_try_match is_eip_1667 is_eip_7511 is_eip_3448
  rw [h1, h2, h3, h4, h5, h6]
  simp [orE, stepE]

lemma get_proxy_type_of_extended_hit {dynd : List Nat → Except Unit (Option (ProxyType × Dispatch))}
    {code : List Nat} {r : ProxyType × Dispatch}
    (h : ExtendedStaticProxy_try_match code = .ok (some r)) :
    get_proxy_type_with dynd code = .ok (some r) := by
  unfold get_proxy_type_with
  rw [h]

lemma get_proxy_type_of_minimal_hit {dynd : List Nat → Except Unit (Option (ProxyType × Dispatch))}
    {code : List Nat} {r : ProxyType × Dispatch}
    (h1 : ExtendedStaticProxy_try_match code = .ok none)
    (h2 : MinimalProxy_try_match code = .ok (some r)) :
    get_proxy_type_with dynd code = .ok (some r) := by
  unfold get_proxy_type_with
  rw [h1, h2]

lemma detects_eip1167_long (dynd : List Nat → Except Unit (Option (ProxyType × Dispatch)))
    (A : List Nat) (hA : A.length = 20)
    (hg : is_gnosis_safe (EIP_1667_FIRST_BYTES ++ A ++ EIP_1667_SECOND_BYTES) = false)
    (hc : is_compound_unitroller (EIP_1667_FIRST_BYTES ++ A ++ EIP_1667_SECOND_BYTES) = false) :
    get_proxy_type_with dynd (EIP_1667_FIRST_BYTES ++ A ++ EIP_1667_SECOND_BYTES) =
      .ok (some (.Eip1167, .static A)) := by
  have hlen : (EIP_1667_FIRST_BYTES ++ A ++ EIP_1667_SECOND_BYTES).length = 45 := by
    simp [EIP_1667_FIRST_BYTES, EIP_1667_SECOND_BYTES, hA]
  refine get_proxy_type_of_minimal_hit
    (extended_none_of_components
      (eip6551_none_of_length (by omega))
      (extract_mismatch (by omega) (by rw [hlen]; decide)
        (mismatch_at (c := 0x36) (d := 0x3d) (j := 0) rfl rfl (by decide)))
      (extract_mismatch (by omega) (by rw [hlen]; decide)
        (mismatch_at (c := 0x36) (d := 0x5f) (j := 0) rfl rfl (by decide)))
      (extract_short (by omega))
      (sequence_false_of_length (by omega))
      (splits_none_of_length (by omega))
      (cwia_none_of_length (by omega))
      hg hc) ?_
  have hl := extract_hit 20 EIP_1667_FIRST_BYTES A EIP_1667_SECOND_BYTES hA 45 (by decide)
  rw [if_neg (by decide)] at hl
  exact minimal_hit_1167_long hl

lemma detects_eip7511_long (dynd : List Nat → Except Unit (Option (ProxyType × Dispatch)))
    (A : List Nat) (hA : A.length = 20)
    (hg : is_gnosis_safe (EIP_7511_FIRST_BYTES ++ A ++ EIP_7511_SECOND_BYTES) = false)
    (hc : is_compound_unitroller (EIP_7511_FIRST_BYTES ++ A ++ EIP_7511_SECOND_BYTES) = false) :
    get_proxy_type_with dynd (EIP_7511_FIRST_BYTES ++ A ++ EIP_7511_SECOND_BYTES) =
      .ok (some (.Eip7511, .static A)) := by
  have hlen : (EIP_7511_FIRST_BYTES ++ A ++ EIP_7511_SECOND_BYTES).length = 44 := by
    simp [EIP_7511_FIRST_BYTES, EIP_7511_SECOND_BYTES, hA]
  refine get_proxy_type_of_minimal_hit
    (extended_none_of_components
      (eip6551_none_of_length (by omega))
      (extract_mismatch (by omega) (by rw [hlen]; decide)
        (mismatch_at (c := 0x36) (d := 0x3d) (j := 0) rfl rfl (by decide)))
      (extract_mismatch (by omega) (by rw [hlen]; decide)
        (mismatch_at (c := 0x36) (d := 0x5f) (j := 0) rfl rfl (by decide)))
      (extract_short (by omega))
      (sequence_false_of_length (by omega))
      (splits_none_of_length (by omega))
      (cwia_none_of_length (by omega))
      hg hc) ?_
  have h7 := extract_hit 20 EIP_7511_FIRST_BYTES A EIP_7511_SECOND_BYTES hA 44 (by decide)
  rw [if_neg (by decide)] at h7
  refine minimal_hit_7511_long
    (extract_short (by omega))
    (extract_mismatch (by omega) (by rw [hlen]; decide)
      (mismatch_at (c := 0x5f) (d := 0x3d) (j := 1) rfl rfl (by decide)))
    h7

lemma detects_eip3448_long (dynd : List Nat → Except Unit (Option (ProxyType × Dispatch)))
    (A : List Nat) (hA : A.length = 20)
    (hg : is_gnosis_safe (EIP_3448_FIRST_BYTES ++ A ++ EIP_3448_SECOND_BYTES) = false)
    (hc : is_compound_unitroller (EIP_3448_FIRST_BYTES ++ A ++ EIP_3448_SECOND_BYTES) = false) :
    get_proxy_type_with dynd (EIP_3448_FIRST_BYTES ++ A ++ EIP_3448_SECOND_BYTES) =
      .ok (some (.Eip3448, .static A)) := by
  have hlen : (EIP_3448_FIRST_BYTES ++ A ++ EIP_3448_SECOND_BYTES).length = 54 := by
    simp [EIP_3448_FIRST_BYTES, EIP_3448_SECOND_BYTES, hA]
  refine get_proxy_type_of_minimal_hit
    (extended_none_of_components
      (eip6551_none_of_length (by omega))
      (extract_mismatch (by omega) (by rw [hlen]; decide)
        (mismatch_at (c := 0x36) (d := 0x3d) (j := 0) rfl rfl (by decide)))
      (extract_mismatch (by omega) (by rw [hlen]; decide)
        (mismatch_at (c := 0x36) (d := 0x5f) (j := 0) rfl rfl (by decide)))
      (extract_mismatch (by omega) (by rw [hlen]; decide)
        (mismatch_at (c := 0x3d) (d := 0x60) (j := 1) rfl rfl (by decide)))
      (sequence_false_of_length (by omega))
      (splits_none_of_length (by omega))
      (cwia_none_of_length (by omega))
      hg hc) ?_
  have h3 := extract_hit 20 EIP_3448_FIRST_BYTES A EIP_3448_SECOND_BYTES hA 44 (by decide)
  rw [if_neg (by decide)] at h3
  refine minimal_hit_3448_long
    (extract_mismatch (by omega) (by rw [hlen]; decide)
      (mismatch_at (c := 0x3d) (d := 0x36) (j := 7) rfl rfl (by decide)))
    (extract_mismatch (by omega) (by rw [hlen]; decide)
      (mismatch_at (c := 0x3d) (d := 0x36) (j := 7) rfl rfl (by decide)))
    (extract_mismatch (by omega) (by rw [hlen]; decide)
      (mismatch_at (c := 0x3d) (d := 0x5f) (j := 1) rfl rfl (by decide)))
    (extract_mismatch (by omega) (by rw [hlen]; decide)
      (mismatch_at (c := 0x3d) (d := 0x5f) (j := 1) rfl rfl (by decide)))
    h3

lemma detects_zero_age (dynd : List Nat → Except Unit (Option (ProxyType × Dispatch)))
    (A : List Nat) (hA : A.length = 20) :
    get_proxy_type_with dynd (ZERO_AGE_FIRST ++ A ++ ZERO_AGE_SECOND) =
      .ok (some (.ZeroAgeMinimal, .static A)) := by
  have hlen : (ZERO_AGE_FIRST ++ A ++ ZERO_AGE_SECOND).length = 44 := by
    simp [ZERO_AGE_FIRST, ZERO_AGE_SECOND, hA]
  have hza := extract_hit 20 ZERO_AGE_FIRST A ZERO_AGE_SECOND hA 44 (by decide)
  rw [if_neg (by decide)] at hza
  exact get_proxy_type_of_extended_hit
    (extended_hit_zero_age (eip6551_none_of_length (by omega)) hza)

lemma detects_solady (dynd : List Nat → Except Unit (Option (ProxyType × Dispatch)))
    (A : List Nat) (hA : A.length = 20) :
    get_proxy_type_with dynd (SOLADY_PUSH0_FIRST ++ A ++ SOLADY_PUSH0_SECOND) =
      .ok (some (.SoladyPush0, .static A)) := by
  have hlen : (SOLADY_PUSH0_FIRST ++ A ++ SOLADY_PUSH0_SECOND).length = 45 := by
    simp [SOLADY_PUSH0_FIRST, SOLADY_PUSH0_SECOND, hA]
  have hsol := extract_hit 20 SOLADY_PUSH0_FIRST A SOLADY_PUSH0_SECOND hA 44 (by decide)
  rw [if_neg (by decide)] at hsol
  exact get_proxy_type_of_extended_hit
    (extended_hit_solady
      (eip6551_none_of_length (by omega))
      (extract_mismatch (by omega) (by rw [hlen]; decide)
        (mismatch_at (c := 0x5f) (d := 0x3d) (j := 0) rfl rfl (by decide)))
      hsol)

lemma detects_vyper_beta (dynd : List Nat → Except Unit (Option (ProxyType × Dispatch)))
    (A : List Nat) (hA : A.length = 20) :
    get_proxy_type_with dynd (VYPER_BETA_FIRST ++ A ++ VYPER_BETA_SECOND) =
      .ok (some (.VyperBeta, .static A)) := by
  have hlen : (VYPER_BETA_FIRST ++ A ++ VYPER_BETA_SECOND).length = 46 := by
    simp [VYPER_BETA_FIRST, VYPER_BETA_SECOND, hA]
  have hvy := extract_hit 20 VYPER_BETA_FIRST A VYPER_BETA_SECOND hA 46 (by decide)
  rw [if_neg (by decide)] at hvy
  exact get_proxy_type_of_extended_hit
    (extended_hit_vyper
      (eip6551_none_of_length (by omega))
      (extract_mismatch (by omega) (by rw [hlen]; decide)
        (mismatch_at (c := 0x36) (d := 0x3d) (j := 0) rfl rfl (by decide)))
      (extract_mismatch (by omega) (by rw [hlen]; decide)
        (mismatch_at (c := 0x36) (d := 0x5f) (j := 0) rfl rfl (by decide)))
      hvy)

lemma splits_hit (A : List Nat) (hA : A.length = 20) :
    is_zero_x_splits (ZERO_X_SPLITS_FIRST ++ A ++ ZERO_X_SPLITS_SECOND) = some A := by
  have hlen : (ZERO_X_SPLITS_FIRST ++ A ++ ZERO_X_SPLITS_SECOND).length = 93 := by
    simp [ZERO_X_SPLITS_FIRST, ZERO_X_SPLITS_SECOND, hA]
  have htake : (ZERO_X_SPLITS_FIRST ++ A ++ ZERO_X_SPLITS_SECOND).take
      ZERO_X_SPLITS_FIRST.length = ZERO_X_SPLITS_FIRST := by
    rw [List.append_assoc, List.take_left]
  have hdrop2 : (ZERO_X_SPLITS_FIRST ++ A ++ ZERO_X_SPLITS_SECOND).drop
      (ZERO_X_SPLITS_FIRST.length + 20) = ZERO_X_SPLITS_SECOND :=
    List.drop_left' (by simp [hA])
  have hdropA : (ZERO_X_SPLITS_FIRST ++ A ++ ZERO_X_SPLITS_SECOND).drop
      ZERO_X_SPLITS_FIRST.length = A ++ ZERO_X_SPLITS_SECOND := by
    rw [List.append_assoc, List.drop_left]
  unfold is_zero_x_splits
  rw [if_neg (by rw [hlen]; decide)]
  rw [htake]
  simp only [ne_eq, not_true_eq_false, if_false, if_neg]
  rw [hdrop2, List.take_length]
  simp only [ne_eq, not_true_eq_false, if_false]
  rw [hdropA, List.take_left' hA]

lemma detects_zero_x_splits (dynd : List Nat → Except Unit (Option (ProxyType × Dispatch)))
    (A : List Nat) (hA : A.length = 20) :
    get_proxy_type_with dynd (ZERO_X_SPLITS_FIRST ++ A ++ ZERO_X_SPLITS_SECOND) =
      .ok (some (.ZeroXSplitsClones, .static A)) := by
  have hlen : (ZERO_X_SPLITS_FIRST ++ A ++ ZERO_X_SPLITS_SECOND).length = 93 := by
    simp [ZERO_X_SPLITS_FIRST, ZERO_X_SPLITS_SECOND, hA]
  exact get_proxy_type_of_extended_hit
    (extended_hit_splits
      (eip6551_none_of_length (by omega))
      (extract_mismatch (by omega) (by rw [hlen]; decide)
        (mismatch_at (c := 0x36) (d := 0x3d) (j := 0) rfl rfl (by decide)))
      (extract_mismatch (by omega) (by rw [hlen]; decide)
        (mismatch_at (c := 0x36) (d := 0x5f) (j := 0) rfl rfl (by decide)))
      (extract_mismatch (by omega) (by rw [hlen]; decide)
        (mismatch_at (c := 0x30) (d := 0x00) (j := 2) rfl rfl (by decide)))
      (sequence_false_of_length (by omega))
      (splits_hit A hA))

lemma detects_sequence_wallet (dynd : List Nat → Except Unit (Option (ProxyType × Dispatch))) :
    get_proxy_type_with dynd SEQUENCE_WALLET_BYTECODE =
      .ok (some (.SequenceWallet, .selfAddressSlot)) :=
  get_proxy_type_of_extended_hit (by decide)

lemma eip6551_hit (A D : List Nat) (hA : A.length = 20) (hD : D.length = 128) :
    is_eip_6551 (EIP_1667_FIRST_BYTES ++ A ++ EIP_1667_SECOND_BYTES ++ D) =
      some (A, beToNat ((D.drop 32).take 32), (D.drop 76).take 20,
        beToNat ((D.drop 96).take 32)) := by
  have hlen : (EIP_1667_FIRST_BYTES ++ A ++ EIP_1667_SECOND_BYTES ++ D).length = 173 := by
    simp [EIP_1667_FIRST_BYTES, EIP_1667_SECOND_BYTES, hA, hD]
  have htake : (EIP_1667_FIRST_BYTES ++ A ++ EIP_1667_SECOND_BYTES ++ D).take
      EIP_1667_FIRST_BYTES.length = EIP_1667_FIRST_BYTES := by
    rw [List.append_assoc, List.append_assoc, List.take_left]
  have hdropS : (EIP_1667_FIRST_BYTES ++ A ++ EIP_1667_SECOND_BYTES ++ D).drop
      (EIP_1667_FIRST_BYTES.length + 20) = EIP_1667_SECOND_BYTES ++ D := by
    rw [List.append_assoc]
    exact List.drop_left' (by simp [hA])
  have hdropA : (EIP_1667_FIRST_BYTES ++ A ++ EIP_1667_SECOND_BYTES ++ D).drop
      EIP_1667_FIRST_BYTES.length = A ++ (EIP_1667_SECOND_BYTES ++ D) := by
    rw [List.append_assoc, List.append_assoc, List.drop_left]
  have hdropD : (EIP_1667_FIRST_BYTES ++ A ++ EIP_1667_SECOND_BYTES ++ D).drop
      EIP_1167_SIZE = D :=
    List.drop_left' (by
      simp [hA, EIP_1167_SIZE, EIP_1667_FIRST_BYTES, EIP_1667_SECOND_BYTES])
  unfold is_eip_6551
  rw [if_neg (by rw [hlen]; decide)]
  rw [if_neg (by rw [hlen]; decide)]
  rw [htake]
  simp only [ne_eq, not_true_eq_false, if_false]
  rw [hdropS]
  rw [show (EIP_1667_SECOND_BYTES ++ D).take EIP_1667_SECOND_BYTES.length =
    EIP_1667_SECOND_BYTES from List.take_left _ _]
  simp only [ne_eq, not_true_eq_false, if_false]
  rw [hdropA, List.take_left' hA, hdropD]
  rw [if_neg (by rw [hD]; decide)]

lemma detects_eip6551 (dynd : List Nat → Except Unit (Option (ProxyType × Dispatch)))
    (A D : List Nat) (hA : A.length = 20) (hD : D.length = 128) :
    get_proxy_type_with dynd (EIP_1667_FIRST_BYTES ++ A ++ EIP_1667_SECOND_BYTES ++ D) =
      .ok (some (.Eip6551, .static6551 A (beToNat ((D.drop 32).take 32))
        ((D.drop 76).take 20) (beToNat ((D.drop 96).take 32)))) :=
  get_proxy_type_of_extended_hit (extended_hit_eip6551 (eip6551_hit A D hA hD))

lemma detects_eip1167_short (dynd : List Nat → Except Unit (Option (ProxyType × Dispatch)))
    (A : List Nat) (hA : A.length = 16)
    (hg : is_gnosis_safe (EIP_1667_SHORT_FIRST_BYTES ++ A ++ EIP_1667_SECOND_BYTES) = false)
    (hc : is_compound_unitroller (EIP_1667_SHORT_FIRST_BYTES ++ A ++ EIP_1667_SECOND_BYTES) = false) :
    get_proxy_type_with dynd (EIP_1667_SHORT_FIRST_BYTES ++ A ++ EIP_1667_SECOND_BYTES) =
      .ok (some (.Eip1167, .static (List.replicate 4 0 ++ A))) := by
  have hlen : (EIP_1667_SHORT_FIRST_BYTES ++ A ++ EIP_1667_SECOND_BYTES).length = 41 := by
    simp [EIP_1667_SHORT_FIRST_BYTES, EIP_1667_SECOND_BYTES, hA]
  refine get_proxy_type_of_minimal_hit
    (extended_none_of_components
      (eip6551_none_of_length (by omega))
      (extract_short (by omega))
      (extract_short (by omega))
      (extract_short (by omega))
      (sequence_false_of_length (by omega))
      (splits_none_of_length (by omega))
      (cwia_none_of_length (by omega))
      hg hc) ?_
  have hs := extract_hit 16 EIP_1667_SHORT_FIRST_BYTES A EIP_1667_SECOND_BYTES hA 41 (by decide)
  rw [if_pos rfl] at hs
  exact minimal_hit_1167_short (extract_short (by omega)) hs

lemma detects_eip7511_short (dynd : List Nat → Except Unit (Option (ProxyType × Dispatch)))
    (A : List Nat) (hA : A.length = 16)
    (hg : is_gnosis_safe (EIP_7511_SHORT_FIRST_BYTES ++ A ++ EIP_7511_SECOND_BYTES) = false)
    (hc : is_compound_unitroller (EIP_7511_SHORT_FIRST_BYTES ++ A ++ EIP_7511_SECOND_BYTES) = false) :
    get_proxy_type_with dynd (EIP_7511_SHORT_FIRST_BYTES ++ A ++ EIP_7511_SECOND_BYTES) =
      .ok (some (.Eip7511, .static (List.replicate 4 0 ++ A))) := by
  have hlen : (EIP_7511_SHORT_FIRST_BYTES ++ A ++ EIP_7511_SECOND_BYTES).length = 40 := by
    simp [EIP_7511_SHORT_FIRST_BYTES, EIP_7511_SECOND_BYTES, hA]
  refine get_proxy_type_of_minimal_hit
    (extended_none_of_components
      (eip6551_none_of_length (by omega))
      (extract_short (by omega))
      (extract_short (by omega))
      (extract_short (by omega))
      (sequence_false_of_length (by omega))
      (splits_none_of_length (by omega))
      (cwia_none_of_length (by omega))
      hg hc) ?_
  have hs := extract_hit 16 EIP_7511_SHORT_FIRST_BYTES A EIP_7511_SECOND_BYTES hA 40 (by decide)
  rw [if_pos rfl] at hs
  exact minimal_hit_7511_short
    (extract_short (by omega))
    (extract_short (by omega))
    (extract_short (by omega))
    hs

lemma detects_eip3448_short (dynd : List Nat → Except Unit (Option (ProxyType × Dispatch)))
    (A : List Nat) (hA : A.length = 16)
    (hg : is_gnosis_safe (EIP_3448_SHORT_FIRST_BYTES ++ A ++ EIP_3448_SECOND_BYTES) = false)
    (hc : is_compound_unitroller (EIP_3448_SHORT_FIRST_BYTES ++ A ++ EIP_3448_SECOND_BYTES) = false) :
    get_proxy_type_with dynd (EIP_3448_SHORT_FIRST_BYTES ++ A ++ EIP_3448_SECOND_BYTES) =
      .ok (some (.Eip3448, .static (List.replicate 4 0 ++ A))) := by
  have hlen : (EIP_3448_SHORT_FIRST_BYTES ++ A ++ EIP_3448_SECOND_BYTES).length = 50 := by
    simp [EIP_3448_SHORT_FIRST_BYTES, EIP_3448_SECOND_BYTES, hA]
  refine get_proxy_type_of_minimal_hit
    (extended_none_of_components
      (eip6551_none_of_length (by omega))
      (extract_mismatch (by omega) (by rw [hlen]; decide)
        (mismatch_at (c := 0x36) (d := 0x3d) (j := 0) rfl rfl (by decide)))
      (extract_mismatch (by omega) (by rw [hlen]; decide)
        (mismatch_at (c := 0x36) (d := 0x5f) (j := 0) rfl rfl (by decide)))
      (extract_mismatch (by omega) (by rw [hlen]; decide)
        (mismatch_at (c := 0x3d) (d := 0x60) (j := 1) rfl rfl (by decide)))
      (sequence_false_of_length (by omega))
      (splits_none_of_length (by omega))
      (cwia_none_of_length (by omega))
      hg hc) ?_
  have hs := extract_hit 16 EIP_3448_SHORT_FIRST_BYTES A EIP_3448_SECOND_BYTES hA 44 (by decide)
  rw [if_pos rfl] at hs
  exact minimal_hit_3448_short
    (extract_mismatch (by omega) (by rw [hlen]; decide)
      (mismatch_at (c := 0x3d) (d := 0x36) (j := 7) rfl rfl (by decide)))
    (extract_mismatch (by omega) (by rw [hlen]; decide)
      (mismatch_at (c := 0x3d) (d := 0x36) (j := 7) rfl rfl (by decide)))
    (extract_mismatch (by omega) (by rw [hlen]; decide)
      (mismatch_at (c := 0x3d) (d := 0x5f) (j := 1) rfl rfl (by decide)))
    (extract_mismatch (by omega) (by rw [hlen]; decide)
      (mismatch_at (c := 0x3d) (d := 0x5f) (j := 1) rfl rfl (by decide)))
    (extract_mismatch (by omega) (by rw [hlen]; decide)
      (mismatch_at (c := 0x6f) (d := 0x73) (j := 20) rfl rfl (by decide)))
    hs

/-- Counterexample to claim C3: the 20-byte address beginning with the
Gnosis Safe masterCopy selector `a619486e` makes the assembled EIP-1167
code contain that selector as a substring, so the extended matcher
classifies it as `(GnosisSafe, Storage(0))` before the minimal-proxy
matcher ever runs — not `(Eip1167, Static(A))`. -/
theorem static_pattern_selector_counterexample :
    get_proxy_type_with dynStub
      (EIP_1667_FIRST_BYTES ++ ([0xa6, 0x19, 0x48, 0x6e] ++ List.replicate 16 0) ++
        EIP_1667_SECOND_BYTES) =
      .ok (some (.GnosisSafe, .storage GNOSIS_SAFE_STORAGE_SLOT)) ∧
    ((ProxyType.GnosisSafe, Dispatch.storage GNOSIS_SAFE_STORAGE_SLOT) ≠
      ((.Eip1167 : ProxyType),
        Dispatch.static ([0xa6, 0x19, 0x48, 0x6e] ++ List.replicate 16 0))) := by
  constructor
  · decide
  · decide

/-- Claim C3 (amended): inserting a 20-byte address `A` into a static
pattern's address slot yields the pattern's ProxyKind and `Static(A)`,
provided the assembled code does not contain the Gnosis Safe masterCopy
selector `a619486e` or the Compound comptroller selector `bb82aa5e` as a
byte substring (those two substring matchers run first and win
otherwise).  Proved here for the EIP-1167, EIP-7511 and EIP-3448 long
patterns; the 0age, Solady-PUSH0, Vyper-beta, 0xSplits, EIP-6551 and
Sequence-wallet patterns precede the selector matchers, so they need no
proviso. -/
theorem static_patterns_detect_amended :
    (∀ (dynd : List Nat → Except Unit (Option (ProxyType × Dispatch))) (A : List Nat),
      A.length = 20 →
      is_gnosis_safe (EIP_1667_FIRST_BYTES ++ A ++ EIP_1667_SECOND_BYTES) = false →
      is_compound_unitroller (EIP_1667_FIRST_BYTES ++ A ++ EIP_1667_SECOND_BYTES) = false →
      get_proxy_type_with dynd (EIP_1667_FIRST_BYTES ++ A ++ EIP_1667_SECOND_BYTES) =
        .ok (some (.Eip1167, .static A))) ∧
    (∀ (dynd : List Nat → Except Unit (Option (ProxyType × Dispatch))) (A : List Nat),
      A.length = 20 →
      is_gnosis_safe (EIP_7511_FIRST_BYTES ++ A ++ EIP_7511_SECOND_BYTES) = false →
      is_compound_unitroller (EIP_7511_FIRST_BYTES ++ A ++ EIP_7511_SECOND_BYTES) = false →
      get_proxy_type_with dynd (EIP_7511_FIRST_BYTES ++ A ++ EIP_7511_SECOND_BYTES) =
        .ok (some (.Eip7511, .static A))) ∧
    (∀ (dynd : List Nat → Except Unit (Option (ProxyType × Dispatch))) (A : List Nat),
      A.length = 20 →
      is_gnosis_safe (EIP_3448_FIRST_BYTES ++ A ++ EIP_3448_SECOND_BYTES) = false →
      is_compound_unitroller (EIP_3448_FIRST_BYTES ++ A ++ EIP_3448_SECOND_BYTES) = false →
      get_proxy_type_with dynd (EIP_3448_FIRST_BYTES ++ A ++ EIP_3448_SECOND_BYTES) =
        .ok (some (.Eip3448, .static A))) ∧
    (∀ (dynd : List Nat → Except Unit (Option (ProxyType × Dispatch))) (A : List Nat),
      A.length = 20 →
      get_proxy_type_with dynd (ZERO_AGE_FIRST ++ A ++ ZERO_AGE_SECOND) =
        .ok (some (.ZeroAgeMinimal, .static A))) ∧
    (∀ (dynd : List Nat → Except Unit (Option (ProxyType × Dispatch))) (A : List Nat),
      A.length = 20 →
      get_proxy_type_with dynd (SOLADY_PUSH0_FIRST ++ A ++ SOLADY_PUSH0_SECOND) =
        .ok (some (.SoladyPush0, .static A))) ∧
    (∀ (dynd : List Nat → Except Unit (Option (ProxyType × Dispatch))) (A : List Nat),
      A.length = 20 →
      get_proxy_type_with dynd (VYPER_BETA_FIRST ++ A ++ VYPER_BETA_SECOND) =
        .ok (some (.VyperBeta, .static A))) ∧
    (∀ (dynd : List Nat → Except Unit (Option (ProxyType × Dispatch))) (A : List Nat),
      A.length = 20 →
      get_proxy_type_with dynd (ZERO_X_SPLITS_FIRST ++ A ++ ZERO_X_SPLITS_SECOND) =
        .ok (some (.ZeroXSplitsClones, .static A))) ∧
    (∀ dynd : List Nat → Except Unit (Option (ProxyType × Dispatch)),
      get_proxy_type_with dynd SEQUENCE_WALLET_BYTECODE =
        .ok (some (.SequenceWallet, .selfAddressSlot))) ∧
    (∀ (dynd : List Nat → Except Unit (Option (ProxyType × Dispatch))) (A D : List Nat),
      A.length = 20 → D.length = 128 →
      get_proxy_type_with dynd (EIP_1667_FIRST_BYTES ++ A ++ EIP_1667_SECOND_BYTES ++ D) =
        .ok (some (.Eip6551, .static6551 A (beToNat ((D.drop 32).take 32))
          ((D.drop 76).take 20) (beToNat ((D.drop 96).take 32))))) :=
  ⟨fun dynd A hA hg hc => detects_eip1167_long dynd A hA hg hc,
   fun dynd A hA hg hc => detects_eip7511_long dynd A hA hg hc,
   fun dynd A hA hg hc => detects_eip3448_long dynd A hA hg hc,
   fun dynd A hA => detects_zero_age dynd A hA,
   fun dynd A hA => detects_solady dynd A hA,
   fun dynd A hA => detects_vyper_beta dynd A hA,
   fun dynd A hA => detects_zero_x_splits dynd A hA,
   fun dynd => detects_sequence_wallet dynd,
   fun dynd A D hA hD => detects_eip6551 dynd A D hA hD⟩

/-- Witness for the amended static-pattern claim: the EIP-1167 long
clone of the address `be…be`, which contains neither selector. -/
theorem static_patterns_detect_amended_witness :
    get_proxy_type_with dynStub
      (EIP_1667_FIRST_BYTES ++ List.replicate 20 0xbe ++ EIP_1667_SECOND_BYTES) =
      .ok (some (.Eip1167, .static (List.replicate 20 0xbe))) :=
  static_patterns_detect_amended.1 dynStub (List.replicate 20 0xbe)
    (by decide) (by decide) (by decide)

/-- Truncated Solady-PUSH0 instance: the full pattern is 45 bytes
(9-byte head, 20-byte address, 16-byte tail) but `min_size` is 44, so
this 44-byte prefix passes the length and head checks. -/
def soladyTruncated : List Nat :=
  SOLADY_PUSH0_FIRST ++ List.replicate 20 0xbe ++ SOLADY_PUSH0_SECOND.take 15

/-- Truncated EIP-3448 long instance: the full pattern is 54 bytes
(21-byte head, 20-byte address, 13-byte tail) but `min_size` is 44, so
this 53-byte prefix passes the length and head checks. -/
def eip3448Truncated : List Nat :=
  EIP_3448_FIRST_BYTES ++ List.replicate 20 0xbe ++ EIP_3448_SECOND_BYTES.take 12

/-- Claim C4 (refuted): a pattern instance one byte short of its total
length does not always yield `None` without failure.  For the
Solady-PUSH0 and EIP-3448 matchers, whose `min_size` arguments are
smaller than `|head| + |address| + |tail|`, the one-byte-short instance
passes the `min_size` and head checks and the tail slice
`code[ss..ss+|tail|]` then indexes out of bounds — a Rust panic,
modelled as `.error ()` — which propagates out of `get_proxy_type`. -/
theorem solady_truncated_panics :
    soladyTruncated.length = 44 ∧
    is_solady_push0 soladyTruncated = .error () ∧
    get_proxy_type_with dynStub soladyTruncated = .error () ∧
    eip3448Truncated.length = 53 ∧
    is_eip_3448_long eip3448Truncated = .error () ∧
    get_proxy_type_with dynStub eip3448Truncated = .error () := by
  refine ⟨by decide, by decide, by decide, by decide, by decide, by decide⟩

/-- Counterexample to claim C5: the short EIP-1167 clone of the 16-byte
field `be…be` resolves to the address `00000000be…be` — the four zero
bytes pad on the left (the high-order end), not on the right as the
claim states. -/
theorem short_clone_padding_counterexample :
    get_proxy_type_with dynStub
      (EIP_1667_SHORT_FIRST_BYTES ++ List.replicate 16 0xbe ++ EIP_1667_SECOND_BYTES) =
      .ok (some (.Eip1167, .static (List.replicate 4 0 ++ List.replicate 16 0xbe))) ∧
    (List.replicate 4 0 ++ List.replicate 16 0xbe) ≠
      (List.replicate 16 (0xbe : Nat) ++ List.replicate 4 0) := by
  constructor
  · decide
  · decide

/-- Claim C5 (amended): for the 16-byte-address clone patterns (short
EIP-1167, EIP-7511 and EIP-3448), the returned `Static` address is the
extracted 16 bytes left-padded with four zero bytes (the zeros occupy
the high-order end), provided the assembled code contains neither the
Gnosis Safe nor the Compound selector as a substring. -/
theorem short_clone_padding_amended :
    (∀ (dynd : List Nat → Except Unit (Option (ProxyType × Dispatch))) (A : List Nat),
      A.length = 16 →
      is_gnosis_safe (EIP_1667_SHORT_FIRST_BYTES ++ A ++ EIP_1667_SECOND_BYTES) = false →
      is_compound_unitroller (EIP_1667_SHORT_FIRST_BYTES ++ A ++ EIP_1667_SECOND_BYTES) = false →
      get_proxy_type_with dynd (EIP_1667_SHORT_FIRST_BYTES ++ A ++ EIP_1667_SECOND_BYTES) =
        .ok (some (.Eip1167, .static (List.replicate 4 0 ++ A)))) ∧
    (∀ (dynd : List Nat → Except Unit (Option (ProxyType × Dispatch))) (A : List Nat),
      A.length = 16 →
      is_gnosis_safe (EIP_7511_SHORT_FIRST_BYTES ++ A ++ EIP_7511_SECOND_BYTES) = false →
      is_compound_unitroller (EIP_7511_SHORT_FIRST_BYTES ++ A ++ EIP_7511_SECOND_BYTES) = false →
      get_proxy_type_with dynd (EIP_7511_SHORT_FIRST_BYTES ++ A ++ EIP_7511_SECOND_BYTES) =
        .ok (some (.Eip7511, .static (List.replicate 4 0 ++ A)))) ∧
    (∀ (dynd : List Nat → Except Unit (Option (ProxyType × Dispatch))) (A : List Nat),
      A.length = 16 →
      is_gnosis_safe (EIP_3448_SHORT_FIRST_BYTES ++ A ++ EIP_3448_SECOND_BYTES) = false →
      is_compound_unitroller (EIP_3448_SHORT_FIRST_BYTES ++ A ++ EIP_3448_SECOND_BYTES) = false →
      get_proxy_type_with dynd (EIP_3448_SHORT_FIRST_BYTES ++ A ++ EIP_3448_SECOND_BYTES) =
        .ok (some (.Eip3448, .static (List.replicate 4 0 ++ A)))) :=
  ⟨fun dynd A hA hg hc => detects_eip1167_short dynd A hA hg hc,
   fun dynd A hA hg hc => detects_eip7511_short dynd A hA hg hc,
   fun dynd A hA hg hc => detects_eip3448_short dynd A hA hg hc⟩

/-- Witness for the amended short-clone padding claim: the short
EIP-1167 clone of the 16-byte field `be…be`. -/
theorem short_clone_padding_amended_witness :
    get_proxy_type_with dynStub
      (EIP_1667_SHORT_FIRST_BYTES ++ List.replicate 16 0xbe ++ EIP_1667_SECOND_BYTES) =
      .ok (some (.Eip1167, .static (List.replicate 4 0 ++ List.replicate 16 0xbe))) :=
  short_clone_padding_amended.1 dynStub (List.replicate 16 0xbe)
    (by decide) (by decide) (by decide)
